import Mathlib

/-!
# Formal model of the NIFTY CE trading system

Shallow embedding of the decision core of the repository:

* signal evaluation — `check_buy_conditions` / `check_exit_conditions`,
  both the live-trader variants (`src/trading/trader.py`) and the
  backtest variants (`src/backtest/backtest_engine.py`);
* position sizing — `calculate_quantity` (`src/trading/trader.py`);
* the live polling loop `wait_for_buy_signal` and the order-execution
  methods `execute_buy` / `execute_sell` (`src/trading/trader.py`);
* the backtest replay: `simulate_buy`, `simulate_sell`, the `run` loop and
  `_calculate_metrics` (`src/backtest/backtest_engine.py`).

Modelling conventions:

* Prices and indicator values are rationals (the Python code uses floats;
  only orderings and exact arithmetic are relied on by the claims).
* Timestamps are naturals (seconds); candle rows additionally carry the
  `hour`/`minute` fields that the replay loop reads.
* The indicator pipeline `calculate_all_indicators` is imported by both
  analysed files from `indicators/technical_indicators`, a module that is
  not part of the analysed sources.  It is therefore abstracted as a
  parameter `calc : List Candle → List IndicatorRow`; every theorem below
  quantifies over it (the row type carries exactly the columns the
  decision code reads, including the `close` column it preserves).
* External effects (broker calls, order fills, wall-clock readings) are
  inputs to the functions that perform them.
* Python expressions that would raise on malformed input (`iloc[-2]` on a
  one-row frame, division by zero) are totalised with the branch that the
  callers make unreachable; each such spot is noted in a comment.
-/

/-- One OHLC candle as handled by the engine, with the timestamp split the
way the replay loop consumes it: `time` orders candles (the `date`
column), `hour`/`minute` are the components the loop compares against the
trading window. -/
structure Candle where
  time : ℕ
  hour : ℕ
  minute : ℕ
  openPrice : ℚ
  high : ℚ
  low : ℚ
  close : ℚ
  volume : ℚ
deriving DecidableEq, Repr

/-- One row of `calculate_all_indicators` output: the columns the decision
code reads (the `close` column of the input candle frame is preserved by
the pipeline). -/
structure IndicatorRow where
  close : ℚ
  supertrend : ℚ
  supertrend_direction : ℤ
  ema_low_8 : ℚ
  ema_8 : ℚ
  ema_9 : ℚ
  stoch_rsi_k : ℚ
  rsi_14 : ℚ
  macd_hist : ℚ
deriving DecidableEq, Repr

/-- `df.tail(n)` of pandas: the last `n` rows (all rows when fewer). -/
def lastN (n : ℕ) (l : List α) : List α := l.drop (l.length - n)

/-- The pair `(df.iloc[-2], df.iloc[-1])`, i.e. (previous, current) row;
`none` when the frame has fewer than two rows (where pandas would raise —
unreachable for the callers, which check the length first). -/
def last2 (l : List α) : Option (α × α) :=
  match l.reverse with
  | current :: prev :: _ => some (prev, current)
  | _ => none

/-- The triple `(df.iloc[-3], df.iloc[-2], df.iloc[-1])`; `none` when the
frame has fewer than three rows. -/
def last3 (l : List α) : Option (α × α × α) :=
  match l.reverse with
  | current :: prev :: prev2 :: _ => some (prev2, prev, current)
  | _ => none

/-! ## Configuration (`TRADER_CONFIG` in `src/trading/trader.py`) -/

def cfg_stoch_rsi_threshold : ℚ := 50

def cfg_rsi_max : ℚ := 65

def cfg_lot_size : ℕ := 65

def cfg_risk_factor : ℚ := 9 / 10

def cfg_primary_check_seconds : ℕ := 10

/-! ## Buy-condition evaluation -/

/-- The seven named booleans of the `conditions` dict built by
`check_buy_conditions` (both variants). -/
structure BuyConditions where
  supertrend_bullish : Bool
  close_above_st : Bool
  close_above_ema_low : Bool
  ema_bullish : Bool
  stoch_ok : Bool
  rsi_ok : Bool
  macd_ok : Bool
deriving DecidableEq, Repr

/-- `all(conditions.values())` over the seven booleans. -/
def buyConditionsAll (c : BuyConditions) : Bool :=
  c.supertrend_bullish && c.close_above_st && c.close_above_ema_low &&
    c.ema_bullish && c.stoch_ok && c.rsi_ok && c.macd_ok

/-- The condition dict of `IntegratedNiftyCETrader.check_buy_conditions`
(trader.py), computed from the current and previous indicator rows; the
thresholds come from `TRADER_CONFIG`. -/
def mkTraderBuyConditions (prev current : IndicatorRow) : BuyConditions :=
  { supertrend_bullish := decide (current.supertrend_direction = 1)
    close_above_st := decide (current.close > current.supertrend)
    close_above_ema_low := decide (current.close > current.ema_low_8)
    ema_bullish := decide (current.ema_8 > current.ema_9)
    stoch_ok := decide (current.stoch_rsi_k < cfg_stoch_rsi_threshold) ||
      decide (current.stoch_rsi_k > prev.stoch_rsi_k)
    rsi_ok := decide (current.rsi_14 < cfg_rsi_max) &&
      decide (current.rsi_14 > prev.rsi_14)
    macd_ok := decide (current.macd_hist > 0) ||
      decide (current.macd_hist > prev.macd_hist) }

/-- The condition dict of `BacktestNiftyCETrader.check_buy_conditions`
(backtest_engine.py); thresholds 50 and 65 are written inline there. -/
def mkBtBuyConditions (prev current : IndicatorRow) : BuyConditions :=
  { supertrend_bullish := decide (current.supertrend_direction = 1)
    close_above_st := decide (current.close > current.supertrend)
    close_above_ema_low := decide (current.close > current.ema_low_8)
    ema_bullish := decide (current.ema_8 > current.ema_9)
    stoch_ok := decide (current.stoch_rsi_k < 50) ||
      decide (current.stoch_rsi_k > prev.stoch_rsi_k)
    rsi_ok := decide (current.rsi_14 < 65) &&
      decide (current.rsi_14 > prev.rsi_14)
    macd_ok := decide (current.macd_hist > 0) ||
      decide (current.macd_hist > prev.macd_hist) }

/-- The details value returned by the trader variant: the error dict
`\x7b"error": "Insufficient data"\x7d` when fewer than 20 candles, the
condition dict otherwise. -/
inductive TraderBuyDetails where
  | insufficientData
  | evaluated (conds : BuyConditions)
deriving DecidableEq, Repr

/-- `IntegratedNiftyCETrader.check_buy_conditions` (trader.py lines
524-612).  The trader computes `all(conditions.values())` before adding
the numeric `values` entry to the dict, so the verdict is the conjunction
of the seven booleans. -/
def trader_check_buy_conditions (calcInd : List Candle → List IndicatorRow)
    (df : List Candle) : Bool × TraderBuyDetails :=
  if df.length < 20 then (false, .insufficientData)
  else
    match last2 (calcInd df) with
    | some (prev, current) =>
        let conds := mkTraderBuyConditions prev current
        (buyConditionsAll conds, .evaluated conds)
    | none => (false, .insufficientData)

/-- The details value returned by the backtest variant: the empty dict
when fewer than 20 candles, the condition dict otherwise. -/
inductive BtBuyDetails where
  | emptyDetails
  | evaluated (conds : BuyConditions)
deriving DecidableEq, Repr

/-- `BacktestNiftyCETrader.check_buy_conditions` (backtest_engine.py lines
376-428).  Here the numeric `values` entry is inserted into the dict
before `all(conditions.values())` runs; a non-empty dict is truthy in
Python, so it contributes a literal `true` conjunct. -/
def bt_check_buy_conditions (calcInd : List Candle → List IndicatorRow)
    (df : List Candle) : Bool × BtBuyDetails :=
  if df.length < 20 then (false, .emptyDetails)
  else
    match last2 (calcInd df) with
    | some (prev, current) =>
        let conds := mkBtBuyConditions prev current
        (buyConditionsAll conds && true, .evaluated conds)
    | none => (false, .emptyDetails)

/-! ## Exit-condition evaluation -/

/-- The details dict of the trader variant of `check_exit_conditions`:
the error dict below 5 rows, the trigger booleans otherwise. -/
inductive TraderExitDetails where
  | insufficientData
  | evaluated (ema_low_falling price_below_ema strong_bearish : Bool)
deriving DecidableEq, Repr

/-- `IntegratedNiftyCETrader.check_exit_conditions` (trader.py lines
613-688): Trigger 1 (EMA-low falling twice and close below EMA low) is
tested before Trigger 2 (strong bearish). -/
def trader_check_exit_conditions (calcInd : List Candle → List IndicatorRow)
    (df_2min : List Candle) : Bool × Option String × TraderExitDetails :=
  if df_2min.length < 5 then (false, none, .insufficientData)
  else
    match last3 (calcInd df_2min) with
    | some (prev2, prev, current) =>
        let ema_low_falling := decide (current.ema_low_8 < prev.ema_low_8) &&
          decide (prev.ema_low_8 < prev2.ema_low_8)
        let price_below_ema := decide (current.close < current.ema_low_8)
        let exit_trigger_1 := ema_low_falling && price_below_ema
        let strong_bearish := decide (current.supertrend_direction = -1) &&
          decide (current.ema_8 < current.ema_9) &&
          decide (current.close < current.ema_low_8)
        let details := TraderExitDetails.evaluated ema_low_falling price_below_ema strong_bearish
        if exit_trigger_1 then (true, some "ema_low_falling", details)
        else if strong_bearish then (true, some "strong_bearish", details)
        else (false, none, details)
    | none => (false, none, .insufficientData)

/-- `BacktestNiftyCETrader.check_exit_conditions` (backtest_engine.py
lines 476-508); identical trigger logic, details dicts are all empty so
only the verdict pair is modelled. -/
def bt_check_exit_conditions (calcInd : List Candle → List IndicatorRow)
    (df_2min : List Candle) : Bool × Option String :=
  if df_2min.length < 5 then (false, none)
  else
    match last3 (calcInd df_2min) with
    | some (prev2, prev, current) =>
        let ema_low_falling := decide (current.ema_low_8 < prev.ema_low_8) &&
          decide (prev.ema_low_8 < prev2.ema_low_8)
        let price_below_ema := decide (current.close < current.ema_low_8)
        let exit_trigger_1 := ema_low_falling && price_below_ema
        let strong_bearish := decide (current.supertrend_direction = -1) &&
          decide (current.ema_8 < current.ema_9) &&
          decide (current.close < current.ema_low_8)
        if exit_trigger_1 then (true, some "ema_low_falling")
        else if strong_bearish then (true, some "strong_bearish")
        else (false, none)
    | none => (false, none)

/-! ## Position sizing -/

/-- `IntegratedNiftyCETrader.calculate_quantity` (trader.py lines
420-457): cost per lot, floored lot count, whole-lot quantity; returns 0
when the cost per lot is not positive. -/
def calculate_quantity (trading_capital option_premium : ℚ) (lot : ℕ) : ℤ :=
  let cost_per_lot : ℚ := option_premium * lot
  if cost_per_lot ≤ 0 then 0
  else
    let max_lots : ℤ := ⌊trading_capital / cost_per_lot⌋
    max_lots * lot

/-! ## Live trader: position state, order execution -/

/-- A completed trade recorded by `record_trade` (trader.py). -/
structure LiveTrade where
  trade_number : ℕ
  symbol : String
  entry_price : ℚ
  exit_price : ℚ
  quantity : ℤ
  pnl : ℚ
  pnl_pct : ℚ
  exit_reason : String
  entry_time : Option ℕ
  exit_time : ℕ
deriving DecidableEq, Repr

/-- The mutable fields of `IntegratedNiftyCETrader` touched by order
execution and trade recording. -/
structure LiveState where
  position_open : Bool
  entry_price : ℚ
  entry_time : Option ℕ
  position_quantity : ℤ
  position_symbol : Option String
  daily_trades : List LiveTrade
  total_pnl : ℚ
  available_balance : ℚ
  trading_capital : ℚ
  calculated_quantity : ℤ
deriving DecidableEq, Repr

/-- `IntegratedNiftyCETrader.record_trade` (trader.py): appends the trade
and accumulates the daily P&L.  (`pnl_pct` divides by the entry price;
Lean's division totalises the zero-entry case Python would raise on.) -/
def record_trade (entry_price exit_price : ℚ) (quantity : ℤ) (symbol : String)
    (exit_reason : String) (now : ℕ) (s : LiveState) : LiveState :=
  let pnl := (exit_price - entry_price) * quantity
  let pnl_pct := (exit_price - entry_price) / entry_price * 100
  let trade : LiveTrade :=
    { trade_number := s.daily_trades.length + 1, symbol := symbol,
      entry_price := entry_price, exit_price := exit_price, quantity := quantity,
      pnl := pnl, pnl_pct := pnl_pct, exit_reason := exit_reason,
      entry_time := s.entry_time, exit_time := now }
  { s with daily_trades := s.daily_trades ++ [trade], total_pnl := s.total_pnl + pnl }

/-- `IntegratedNiftyCETrader.execute_buy` (trader.py lines 984-1032).
External collaborators appear as inputs: `fresh_balance` is what the
balance refresh returns, `option_premium` the refreshed LTP,
`order_placed` whether `place_buy_order` returned an order id, and
`filled_price` what `get_filled_price` returned (0 when not filled, in
which case the LTP is used as fallback).  Note: the method performs no
check of `position_open`. -/
def execute_buy (option_premium fresh_balance : ℚ) (order_placed : Bool)
    (filled_price : ℚ) (now : ℕ) (symbol : String) (s : LiveState) :
    Bool × LiveState :=
  let s1 := { s with available_balance := fresh_balance,
                     trading_capital := fresh_balance * cfg_risk_factor }
  let quantity := calculate_quantity s1.trading_capital option_premium cfg_lot_size
  let s2 := { s1 with calculated_quantity := quantity }
  if quantity ≤ 0 then (false, s2)
  else if order_placed then
    let entry := if 0 < filled_price then filled_price else option_premium
    (true, { s2 with position_open := true, entry_price := entry,
                     entry_time := some now, position_quantity := quantity,
                     position_symbol := some symbol })
  else (false, s2)

/-- `IntegratedNiftyCETrader.execute_sell` (trader.py): a no-op returning
`False` when no position is open; otherwise places the order and, when it
goes through, records the trade and resets the position fields. -/
def execute_sell (reason : String) (current_price : ℚ) (order_placed : Bool)
    (filled_price : ℚ) (now : ℕ) (s : LiveState) : Bool × LiveState :=
  if !s.position_open then (false, s)
  else if order_placed then
    let exit_price := if 0 < filled_price then filled_price else current_price
    let s1 := record_trade s.entry_price exit_price s.position_quantity
      (s.position_symbol.getD "") reason now s
    (true, { s1 with position_open := false, entry_price := 0, entry_time := none,
                     position_quantity := 0, position_symbol := none })
  else (false, s)

/-! ## Live trader: the `wait_for_buy_signal` polling loop -/

/-- The external observations of one iteration of `wait_for_buy_signal`:
wall-clock time, the market-hour predicates, whether an option is
selected, and the two fetched candle frames. -/
structure LivePoll where
  time : ℕ
  market_open : Bool
  watch_only : Bool
  stop_new : Bool
  option_selected : Bool
  df_2min : List Candle
  df_5min : List Candle
deriving DecidableEq, Repr

/-- `can_trade` (trader.py): market open, not watch-only, not in the
stop-new-trades window. -/
def pollCanTrade (p : LivePoll) : Bool :=
  p.market_open && !p.watch_only && !p.stop_new

/-- The signal attributes of the trader carried across loop iterations:
`primary_signal`, `confirm_signal` and the local `last_5min_check`. -/
structure SignalState where
  primary_signal : Bool
  confirm_signal : Bool
  last_5min_check : ℕ
deriving DecidableEq, Repr

/-- Outcome of the polling loop on a finite trace: either it returned
`False` / ran out of observations, or it returned `True` at poll `i`. -/
inductive WaitOutcome where
  | noSignal
  | signalAt (i : ℕ)
deriving DecidableEq, Repr

/-- The 2-minute confirmation computed at a poll: `False` when the fetch
came back empty, otherwise the trader buy check on the fetched frame. -/
def freshConfirm (calcInd : List Candle → List IndicatorRow) (p : LivePoll) : Bool :=
  if p.df_2min.isEmpty then false
  else (trader_check_buy_conditions calcInd p.df_2min).1

/-- The 5-minute primary verdict a fresh evaluation at a poll would give:
`False` when the fetch came back empty, otherwise the trader buy check. -/
def freshPrimary (calcInd : List Candle → List IndicatorRow) (p : LivePoll) : Bool :=
  if p.df_5min.isEmpty then false
  else (trader_check_buy_conditions calcInd p.df_5min).1

/-- The primary flag in force at the decision point of a poll: freshly
evaluated when the 10-second throttle has elapsed, otherwise the stored
value from the last throttled check. -/
def primaryAtDecision (calcInd : List Candle → List IndicatorRow)
    (s : SignalState) (p : LivePoll) : Bool :=
  if cfg_primary_check_seconds ≤ p.time - s.last_5min_check then freshPrimary calcInd p
  else s.primary_signal

/-- The signal-state update performed by one non-skipped iteration of
`wait_for_buy_signal`: the confirm signal is recomputed every poll, the
primary signal and the `last_5min_check` stamp only when the 10-second
throttle has elapsed. -/
def nextSignalState (calcInd : List Candle → List IndicatorRow)
    (s : SignalState) (p : LivePoll) : SignalState :=
  { primary_signal := primaryAtDecision calcInd s p,
    confirm_signal := freshConfirm calcInd p,
    last_5min_check :=
      if cfg_primary_check_seconds ≤ p.time - s.last_5min_check then p.time
      else s.last_5min_check }

/-- The body of `wait_for_buy_signal` (trader.py lines 1081-1153) over a
finite trace of polls, indexed from `i`.  Branches in source order:
market closed returns `False`; watch-only sleeps and continues; the
stop-new-trades window returns `False`; no option selected sleeps and
continues; otherwise the signals are updated (`nextSignalState`) and
double confirmation together with `can_trade` returns `True` at this
poll. -/
def waitGo (calcInd : List Candle → List IndicatorRow) :
    ℕ → SignalState → List LivePoll → WaitOutcome
  | _, _, [] => .noSignal
  | i, s, p :: rest =>
    if !p.market_open then .noSignal
    else if p.watch_only then waitGo calcInd (i + 1) s rest
    else if p.stop_new then .noSignal
    else if !p.option_selected then waitGo calcInd (i + 1) s rest
    else
      if (nextSignalState calcInd s p).primary_signal &&
          (nextSignalState calcInd s p).confirm_signal then
        if pollCanTrade p then .signalAt i
        else waitGo calcInd (i + 1) (nextSignalState calcInd s p) rest
      else waitGo calcInd (i + 1) (nextSignalState calcInd s p) rest

/-- `wait_for_buy_signal` started with the initial signal state
(`last_5min_check = 0`, both signals `False`). -/
def wait_for_buy_signal (calcInd : List Candle → List IndicatorRow)
    (polls : List LivePoll) : WaitOutcome :=
  waitGo calcInd 0
    { primary_signal := false, confirm_signal := false, last_5min_check := 0 } polls

/-! ## Backtest engine: state, simulated orders -/

/-- `self.current_position` of `BacktestNiftyCETrader`. -/
structure BtPosition where
  entry_time : ℕ
  entry_price : ℚ
  quantity : ℤ
  symbol : String
deriving DecidableEq, Repr

/-- A completed backtest trade as recorded by `simulate_sell`. -/
structure BtTrade where
  trade_number : ℕ
  entry_time : ℕ
  exit_time : ℕ
  entry_price : ℚ
  exit_price : ℚ
  quantity : ℤ
  pnl : ℚ
  pnl_pct : ℚ
  exit_reason : String
deriving DecidableEq, Repr

/-- The mutable simulation fields of `BacktestNiftyCETrader` used by the
replay loop. -/
structure BtState where
  current_balance : ℚ
  current_position : Option BtPosition
  trades : List BtTrade
  last_5min_check_idx : ℤ
deriving DecidableEq, Repr

/-- `BacktestNiftyCETrader.simulate_buy` (backtest_engine.py lines
510-540): refused only when a position already exists; quantity is a
fixed one lot (65 units); the cost is debited even when the balance is
insufficient (only a warning is logged). -/
def simulate_buy (symbol : String) (timestamp : ℕ) (ce_price : ℚ)
    (s : BtState) : Bool × BtState :=
  match s.current_position with
  | some _ => (false, s)
  | none =>
    let quantity : ℤ := 1 * 65
    if quantity ≤ 0 then (false, s)
    else
      let cost := ce_price * (quantity : ℚ)
      let pos : BtPosition := { entry_time := timestamp, entry_price := ce_price,
                                quantity := quantity, symbol := symbol }
      (true, { s with current_balance := s.current_balance - cost,
                      current_position := some pos })

/-- `BacktestNiftyCETrader.simulate_sell` (backtest_engine.py lines
541-575): a no-op returning `False` when flat; otherwise credits the
proceeds, appends the trade record and clears the position. -/
def simulate_sell (timestamp : ℕ) (ce_price : ℚ) (reason : String)
    (s : BtState) : Bool × BtState :=
  match s.current_position with
  | none => (false, s)
  | some pos =>
    let proceeds := ce_price * (pos.quantity : ℚ)
    let pnl := (ce_price - pos.entry_price) * (pos.quantity : ℚ)
    let pnl_pct := (ce_price - pos.entry_price) / pos.entry_price * 100
    let trade : BtTrade :=
      { trade_number := s.trades.length + 1, entry_time := pos.entry_time,
        exit_time := timestamp, entry_price := pos.entry_price,
        exit_price := ce_price, quantity := pos.quantity, pnl := pnl,
        pnl_pct := pnl_pct, exit_reason := reason }
    (true, { s with current_balance := s.current_balance + proceeds,
                    trades := s.trades ++ [trade], current_position := none })

/-! ## Backtest engine: the replay loop -/

/-- The trailing window the replay builds at a step:
`series[series.date <= current_time].tail(20)`. -/
def btWindow (series : List Candle) (current_time : ℕ) : List Candle :=
  lastN 20 (series.filter (fun c => c.time ≤ current_time))

/-- The throttled 5-minute primary evaluation of the replay loop: the
fresh verdict and the updated `last_5min_check_idx` when at least 2 steps
have passed since the last primary check, otherwise `False` and the old
stamp. -/
def btPrimaryPair (calcInd : List Candle → List IndicatorRow) (df5 : List Candle)
    (idx : ℕ) (c : Candle) (s : BtState) : Bool × ℤ :=
  if 2 ≤ (idx : ℤ) - s.last_5min_check_idx then
    ((bt_check_buy_conditions calcInd (btWindow df5 c.time)).1, (idx : ℤ))
  else (false, s.last_5min_check_idx)

/-- One iteration of the `for idx in range(20, len(ce_df))` loop of
`BacktestNiftyCETrader.run` (backtest_engine.py lines 625-711); the
returned boolean is `true` when the loop `break`s (the 3:15 PM stop).
Branches in source order: skip candles before 9:30; at the first candle
with hour 15 and minute at least 15, force-close any open position with
reason `market_close` and break; skip when either trailing window is
empty; when a position is open run the exit check and sell on a trigger;
when flat run the 2-minute confirm every step and the 5-minute primary
only as `btPrimaryPair` allows — it is freshly evaluated when at least 2
steps have passed since the last primary check and `False` otherwise —
buying on double confirmation. -/
def btStep (calcInd : List Candle → List IndicatorRow) (df2 df5 : List Candle)
    (symbol : String) (idx : ℕ) (c : Candle) (s : BtState) : BtState × Bool :=
  if c.hour = 9 ∧ c.minute < 30 then (s, false)
  else if c.hour = 15 ∧ 15 ≤ c.minute then
    (match s.current_position with
     | some _ => (simulate_sell c.time c.close "market_close" s).2
     | none => s, true)
  else
    if (btWindow df2 c.time).isEmpty ∨ (btWindow df5 c.time).isEmpty then (s, false)
    else
      match s.current_position with
      | some _ =>
        if (bt_check_exit_conditions calcInd (btWindow df2 c.time)).1 then
          ((simulate_sell c.time c.close
              ((bt_check_exit_conditions calcInd (btWindow df2 c.time)).2.getD "") s).2, false)
        else (s, false)
      | none =>
        if (btPrimaryPair calcInd df5 idx c s).1 &&
            (bt_check_buy_conditions calcInd (btWindow df2 c.time)).1 then
          ((simulate_buy symbol c.time c.close
              { s with last_5min_check_idx := (btPrimaryPair calcInd df5 idx c s).2 }).2, false)
        else ({ s with last_5min_check_idx := (btPrimaryPair calcInd df5 idx c s).2 }, false)

/-- The replay loop over the remaining `(idx, candle)` pairs, honouring
the `break` flag of `btStep`. -/
def btGo (calcInd : List Candle → List IndicatorRow) (df2 df5 : List Candle)
    (symbol : String) : List (ℕ × Candle) → BtState → BtState
  | [], s => s
  | (idx, c) :: rest, s =>
    let step := btStep calcInd df2 df5 symbol idx c s
    if step.2 then step.1 else btGo calcInd df2 df5 symbol rest step.1

/-- The state after the replay loop of `run`: starting flat with the
initial balance and `last_5min_check_idx = -1`, iterating from index 20. -/
def btLoopResult (calcInd : List Candle → List IndicatorRow) (symbol : String)
    (df2 df5 : List Candle) (initial_balance : ℚ) : BtState :=
  btGo calcInd df2 df5 symbol (df2.enum.drop 20)
    { current_balance := initial_balance, current_position := none,
      trades := [], last_5min_check_idx := -1 }

/-- `BacktestNiftyCETrader.run` up to (but not including) the metrics
computation: the empty-data hard stops of `load_historical_data`
(backtest_engine.py lines 320-329), the replay loop from index 20, and
the final force-close of a position still open at the last candle. -/
def bt_run_state (calcInd : List Candle → List IndicatorRow) (symbol : String)
    (df2 df5 : List Candle) (initial_balance : ℚ) : Except String BtState :=
  if df2.isEmpty then
    .error "No CE option 2-min data loaded - check if instrument token is correct"
  else if df5.isEmpty then
    .error "No CE option 5-min data loaded - check if instrument token is correct"
  else
    match (btLoopResult calcInd symbol df2 df5 initial_balance).current_position,
        df2.getLast? with
    | some _, some lastc =>
        .ok (simulate_sell lastc.time lastc.close "market_close"
              (btLoopResult calcInd symbol df2 df5 initial_balance)).2
    | _, _ => .ok (btLoopResult calcInd symbol df2 df5 initial_balance)

/-! ## Backtest engine: metrics -/

/-- The metrics dict returned by `_calculate_metrics`. -/
structure BtMetrics where
  total_trades : ℕ
  winning_trades : ℕ
  losing_trades : ℕ
  win_rate : ℚ
  total_pnl : ℚ
  total_pnl_pct : ℚ
  avg_win : ℚ
  avg_loss : ℚ
  max_drawdown : ℚ
  sharpe_ratio : ℚ
  avg_trade_duration_minutes : ℚ
  final_balance : ℚ
  initial_balance : ℚ
  trades : List BtTrade
deriving DecidableEq, Repr

/-- The all-zero metrics dict `_calculate_metrics` returns when the trade
ledger is empty (backtest_engine.py lines 794-812). -/
def emptyMetrics (initial current : ℚ) : BtMetrics :=
  { total_trades := 0, winning_trades := 0, losing_trades := 0, win_rate := 0,
    total_pnl := 0, total_pnl_pct := 0, avg_win := 0, avg_loss := 0,
    max_drawdown := 0, sharpe_ratio := 0, avg_trade_duration_minutes := 0,
    final_balance := current, initial_balance := initial, trades := [] }

/-- `np.mean` over rationals. -/
def listMean (l : List ℚ) : ℚ := l.sum / l.length

/-- The cumulative balance curve `[initial, initial+pnl1, ...]` built by
`_calculate_metrics`. -/
def balanceCurve (initial : ℚ) : List BtTrade → List ℚ
  | [] => [initial]
  | t :: ts => initial :: balanceCurve (initial + t.pnl) ts

/-- The peak-tracking drawdown fold of `_calculate_metrics`. -/
def maxDrawdownGo (peak mdd : ℚ) : List ℚ → ℚ
  | [] => mdd
  | b :: bs =>
    let peak' := if peak < b then b else peak
    let dd := (peak' - b) / peak' * 100
    maxDrawdownGo peak' (if mdd < dd then dd else mdd) bs

/-- `BacktestNiftyCETrader._calculate_metrics`.  The two floating-point
numerics that have no exact rational counterpart — `np.std` and
`np.sqrt(252)` — are abstracted as the parameters `numStd` and `sqrt252`;
they are only consulted on a non-empty ledger. -/
def calculate_metrics (numStd : List ℚ → ℚ) (sqrt252 : ℚ)
    (initial_balance current_balance : ℚ) (trades : List BtTrade) : BtMetrics :=
  match trades with
  | [] => emptyMetrics initial_balance current_balance
  | _ :: _ =>
    let total_pnl := (trades.map (fun t => t.pnl)).sum
    let winning := trades.filter (fun t => 0 < t.pnl)
    let losing := trades.filter (fun t => t.pnl < 0)
    let win_rate := (winning.length : ℚ) / (trades.length : ℚ) * 100
    let avg_win := if winning.isEmpty then 0 else listMean (winning.map (fun t => t.pnl))
    let avg_loss := if losing.isEmpty then 0 else listMean (losing.map (fun t => t.pnl))
    let curve := balanceCurve initial_balance trades
    let max_drawdown := maxDrawdownGo (curve.headD initial_balance) 0 curve
    let rets := trades.map (fun t => t.pnl_pct)
    let sharpe := if 1 < rets.length ∧ 0 < numStd rets then
        listMean rets / numStd rets * sqrt252
      else 0
    let durations := trades.map (fun t => ((t.exit_time : ℚ) - (t.entry_time : ℚ)) / 60)
    { total_trades := trades.length, winning_trades := winning.length,
      losing_trades := losing.length, win_rate := win_rate, total_pnl := total_pnl,
      total_pnl_pct := total_pnl / initial_balance * 100, avg_win := avg_win,
      avg_loss := avg_loss, max_drawdown := max_drawdown, sharpe_ratio := sharpe,
      avg_trade_duration_minutes := listMean durations,
      final_balance := current_balance, initial_balance := initial_balance,
      trades := trades }

/-- `BacktestNiftyCETrader.run` end to end: replay then metrics. -/
def bt_run (calcInd : List Candle → List IndicatorRow) (symbol : String)
    (df2 df5 : List Candle) (numStd : List ℚ → ℚ) (sqrt252 : ℚ)
    (initial_balance : ℚ) : Except String BtMetrics :=
  (bt_run_state calcInd symbol df2 df5 initial_balance).map
    (fun s => calculate_metrics numStd sqrt252 initial_balance s.current_balance s.trades)

/-! ## Specification-side predicates

These transcribe the conditions as the specification states them, to be
compared with the verdicts the embedded code computes. -/

/-- The seven entry conditions as enumerated by the specification
(current row vs. previous row). -/
abbrev specBuyConditionsProp (prev current : IndicatorRow) : Prop :=
  current.supertrend_direction = 1 ∧
  current.supertrend < current.close ∧
  current.ema_low_8 < current.close ∧
  current.ema_9 < current.ema_8 ∧
  (current.stoch_rsi_k < 50 ∨ prev.stoch_rsi_k < current.stoch_rsi_k) ∧
  (current.rsi_14 < 65 ∧ prev.rsi_14 < current.rsi_14) ∧
  (0 < current.macd_hist ∨ prev.macd_hist < current.macd_hist)

/-- Exit Trigger A of the specification: EMA low strictly decreasing over
the last two steps and close below EMA low. -/
abbrev specExitTriggerA (prev2 prev current : IndicatorRow) : Prop :=
  current.ema_low_8 < prev.ema_low_8 ∧ prev.ema_low_8 < prev2.ema_low_8 ∧
    current.close < current.ema_low_8

/-- Exit Trigger B of the specification: bearish SuperTrend, EMA 8 below
EMA 9, close below EMA low. -/
abbrev specExitTriggerB (current : IndicatorRow) : Prop :=
  current.supertrend_direction = -1 ∧ current.ema_8 < current.ema_9 ∧
    current.close < current.ema_low_8

/-! ## Concrete instances used by witnesses and counterexamples -/

/-- Candle with the given time, hour, minute and close (other fields 0). -/
def mkCandle (t h m : ℕ) (close : ℚ) : Candle :=
  { time := t, hour := h, minute := m, openPrice := 0, high := 0, low := 0,
    close := close, volume := 0 }

/-- A concrete indicator pipeline used to instantiate the abstract
`calcInd` parameter: SuperTrend and EMA-low sit at the candle low, so on
candles with low 0 and positive close every condition other than RSI
passes, and RSI passes exactly when the close is rising and below 65 —
the buy verdict tracks the last two closes, and neither exit trigger
fires. -/
def rowOfCandle (c : Candle) : IndicatorRow :=
  { close := c.close, supertrend := c.low,
    supertrend_direction := if c.low < c.close then 1 else -1,
    ema_low_8 := c.low, ema_8 := 2, ema_9 := 1, stoch_rsi_k := 10,
    rsi_14 := c.close, macd_hist := 1 }

/-- Row-wise pipeline over a candle frame. -/
def calcMap : List Candle → List IndicatorRow := List.map rowOfCandle

/-- Twenty candles with strictly increasing closes 1..20. -/
def dfInc : List Candle :=
  [mkCandle 0 10 0 1, mkCandle 1 10 0 2, mkCandle 2 10 0 3, mkCandle 3 10 0 4, mkCandle 4 10 0 5, mkCandle 5 10 0 6, mkCandle 6 10 0 7, mkCandle 7 10 0 8, mkCandle 8 10 0 9, mkCandle 9 10 0 10, mkCandle 10 10 0 11, mkCandle 11 10 0 12, mkCandle 12 10 0 13, mkCandle 13 10 0 14, mkCandle 14 10 0 15, mkCandle 15 10 0 16, mkCandle 16 10 0 17, mkCandle 17 10 0 18, mkCandle 18 10 0 19, mkCandle 19 10 0 20]

/-- Twenty candles with strictly decreasing closes 20..1. -/
def dfDec : List Candle :=
  [mkCandle 0 10 0 20, mkCandle 1 10 0 19, mkCandle 2 10 0 18, mkCandle 3 10 0 17, mkCandle 4 10 0 16, mkCandle 5 10 0 15, mkCandle 6 10 0 14, mkCandle 7 10 0 13, mkCandle 8 10 0 12, mkCandle 9 10 0 11, mkCandle 10 10 0 10, mkCandle 11 10 0 9, mkCandle 12 10 0 8, mkCandle 13 10 0 7, mkCandle 14 10 0 6, mkCandle 15 10 0 5, mkCandle 16 10 0 4, mkCandle 17 10 0 3, mkCandle 18 10 0 2, mkCandle 19 10 0 1]

/-- Twenty candles whose last two closes are equal (19, 19). -/
def dfFlat : List Candle :=
  [mkCandle 0 10 0 1, mkCandle 1 10 0 2, mkCandle 2 10 0 3, mkCandle 3 10 0 4, mkCandle 4 10 0 5, mkCandle 5 10 0 6, mkCandle 6 10 0 7, mkCandle 7 10 0 8, mkCandle 8 10 0 9, mkCandle 9 10 0 10, mkCandle 10 10 0 11, mkCandle 11 10 0 12, mkCandle 12 10 0 13, mkCandle 13 10 0 14, mkCandle 14 10 0 15, mkCandle 15 10 0 16, mkCandle 16 10 0 17, mkCandle 17 10 0 18, mkCandle 18 10 0 19, mkCandle 19 10 0 19]

/-- A poll at second 100 whose 5-minute frame evaluates to a buy and
whose 2-minute frame does not. -/
def pollPrimaryOnly : LivePoll :=
  { time := 100, market_open := true, watch_only := false, stop_new := false,
    option_selected := true, df_2min := dfDec, df_5min := dfInc }

/-- A poll 5 seconds later (inside the 10-second primary throttle) whose
2-minute frame evaluates to a buy while its 5-minute frame does not. -/
def pollConfirmOnly : LivePoll :=
  { time := 105, market_open := true, watch_only := false, stop_new := false,
    option_selected := true, df_2min := dfInc, df_5min := dfFlat }

/-- 2-minute series for the replay counterexample: 20 warm-up candles,
an in-window candle at index 20, a candle at 15:15 (the stop boundary)
and a further candle at 15:20, still before the 15:30 close. -/
def df2Replay : List Candle :=
  dfInc ++ [mkCandle 20 10 0 21, mkCandle 21 15 15 30, mkCandle 22 15 20 31]

/-- Indicator rows making every trader/backtest buy condition pass
(current vs. previous). -/
def rowBuyPrev : IndicatorRow :=
  { close := 9, supertrend := 5, supertrend_direction := 1, ema_low_8 := 6,
    ema_8 := 3, ema_9 := 2, stoch_rsi_k := 30, rsi_14 := 40, macd_hist := 0 }

def rowBuyCur : IndicatorRow :=
  { close := 10, supertrend := 5, supertrend_direction := 1, ema_low_8 := 6,
    ema_8 := 3, ema_9 := 2, stoch_rsi_k := 20, rsi_14 := 50, macd_hist := 1 }

/-- A pipeline that always yields the all-pass pair of rows. -/
def calcBuyPair : List Candle → List IndicatorRow := fun _ => [rowBuyPrev, rowBuyCur]

/-- Twenty identical candles (warm-up satisfied, content irrelevant). -/
def dfTwenty : List Candle := List.replicate 20 (mkCandle 0 10 0 1)

/-- Five identical candles. -/
def dfFive : List Candle := List.replicate 5 (mkCandle 0 10 0 1)

/-- Indicator rows under which both exit triggers fire simultaneously:
EMA low falls 10, 9, 8 with close 7 below it, SuperTrend bearish and
EMA 8 below EMA 9. -/
def rowExitPrev2 : IndicatorRow :=
  { close := 11, supertrend := 0, supertrend_direction := 1, ema_low_8 := 10,
    ema_8 := 0, ema_9 := 0, stoch_rsi_k := 0, rsi_14 := 0, macd_hist := 0 }

def rowExitPrev : IndicatorRow :=
  { close := 10, supertrend := 0, supertrend_direction := 1, ema_low_8 := 9,
    ema_8 := 0, ema_9 := 0, stoch_rsi_k := 0, rsi_14 := 0, macd_hist := 0 }

def rowExitCur : IndicatorRow :=
  { close := 7, supertrend := 0, supertrend_direction := -1, ema_low_8 := 8,
    ema_8 := 1, ema_9 := 2, stoch_rsi_k := 0, rsi_14 := 0, macd_hist := 0 }

/-- A pipeline that always yields the both-triggers rows. -/
def calcExitBoth : List Candle → List IndicatorRow :=
  fun _ => [rowExitPrev2, rowExitPrev, rowExitCur]

/-- A live-trader state with a position already open (entry at 50). -/
def liveOpenState : LiveState :=
  { position_open := true, entry_price := 50, entry_time := some 1,
    position_quantity := 65, position_symbol := some "NIFTY25JAN25100CE",
    daily_trades := [], total_pnl := 0, available_balance := 0,
    trading_capital := 0, calculated_quantity := 0 }

/-- A flat backtest state whose balance does not cover one lot at
premium 100. -/
def btLowBalanceState : BtState :=
  { current_balance := 100, current_position := none, trades := [],
    last_5min_check_idx := -1 }

/-- A backtest state holding an open position. -/
def btOpenState : BtState :=
  { current_balance := 1000,
    current_position := some { entry_time := 1, entry_price := 50, quantity := 65,
                               symbol := "NIFTY25JAN25100CE" },
    trades := [], last_5min_check_idx := -1 }

/-- A flat live-trader state. -/
def liveFlatState : LiveState :=
  { position_open := false, entry_price := 0, entry_time := none,
    position_quantity := 0, position_symbol := none, daily_trades := [],
    total_pnl := 0, available_balance := 0, trading_capital := 0,
    calculated_quantity := 0 }

/-- The signal state after a poll that evaluated the primary check true
and the confirm check false at second 100. -/
def sigStateAfterPrimary : SignalState :=
  { primary_signal := true, confirm_signal := false, last_5min_check := 100 }

/-- The initial backtest state of `run` with balance 100000. -/
def btFlatInit : BtState :=
  { current_balance := 100000, current_position := none, trades := [],
    last_5min_check_idx := -1 }

/-! # Theorems for the claims -/

/-- Claim C1: for every candle series of at least 20 rows, the entry
evaluation (`check_buy_conditions`, both the live-trader and the backtest
variant) returns verdict `true` if and only if all seven conditions hold
on the last two indicator rows — a strict conjunction, no subset of the
seven suffices. -/
theorem C1_buy_conditions_iff (calcInd : List Candle → List IndicatorRow)
    (df : List Candle) (prev current : IndicatorRow)
    (h20 : 20 ≤ df.length) (hrows : last2 (calcInd df) = some (prev, current)) :
    (((trader_check_buy_conditions calcInd df).1 = true) ↔
        specBuyConditionsProp prev current) ∧
    (((bt_check_buy_conditions calcInd df).1 = true) ↔
        specBuyConditionsProp prev current) := by
  have hlt : ¬ df.length < 20 := by omega
  constructor
  · unfold trader_check_buy_conditions
    rw [if_neg hlt, hrows]
    simp [mkTraderBuyConditions, buyConditionsAll, cfg_stoch_rsi_threshold,
      cfg_rsi_max, and_assoc]
  · unfold bt_check_buy_conditions
    rw [if_neg hlt, hrows]
    simp [mkBtBuyConditions, buyConditionsAll, and_assoc]

/-- Witness for C1 at a concrete pipeline and 20-candle frame whose last
two rows satisfy all seven conditions. -/
theorem C1_buy_conditions_iff_witness :
    20 ≤ dfTwenty.length ∧
    last2 (calcBuyPair dfTwenty) = some (rowBuyPrev, rowBuyCur) ∧
    (((trader_check_buy_conditions calcBuyPair dfTwenty).1 = true) ↔
        specBuyConditionsProp rowBuyPrev rowBuyCur) :=
  ⟨by decide, by decide,
    (C1_buy_conditions_iff calcBuyPair dfTwenty rowBuyPrev rowBuyCur
      (by decide) (by decide)).1⟩

/-- Claim C4: on any identical candle frame, the live trader's condition
checks and the backtest engine's condition checks agree — the entry
verdicts coincide, and the exit results coincide in both the verdict and
the reported reason. -/
theorem C4_live_backtest_equivalence (calcInd : List Candle → List IndicatorRow)
    (df : List Candle) :
    (trader_check_buy_conditions calcInd df).1 = (bt_check_buy_conditions calcInd df).1 ∧
    (trader_check_exit_conditions calcInd df).1 = (bt_check_exit_conditions calcInd df).1 ∧
    (trader_check_exit_conditions calcInd df).2.1 = (bt_check_exit_conditions calcInd df).2 := by
  refine ⟨?_, ?_, ?_⟩
  · unfold trader_check_buy_conditions bt_check_buy_conditions
    by_cases h : df.length < 20
    · simp [h]
    · rw [if_neg h, if_neg h]
      rcases hl : last2 (calcInd df) with _ | ⟨prev, current⟩
      · simp
      · simp [mkTraderBuyConditions, mkBtBuyConditions, buyConditionsAll,
          cfg_stoch_rsi_threshold, cfg_rsi_max]
  · unfold trader_check_exit_conditions bt_check_exit_conditions
    by_cases h : df.length < 5
    · simp [h]
    · rw [if_neg h, if_neg h]
      rcases hl : last3 (calcInd df) with _ | ⟨prev2, prev, current⟩
      · simp
      · simp only []
        split_ifs <;> rfl
  · unfold trader_check_exit_conditions bt_check_exit_conditions
    by_cases h : df.length < 5
    · simp [h]
    · rw [if_neg h, if_neg h]
      rcases hl : last3 (calcInd df) with _ | ⟨prev2, prev, current⟩
      · simp
      · simp only []
        split_ifs <;> rfl

/-- Claim C5: when both exit triggers hold simultaneously on an indicator
history of at least 5 rows, `check_exit_conditions` (both variants)
returns `should_exit = true` with reason exactly `"ema_low_falling"` —
Trigger A takes priority and exactly one reason is reported. -/
theorem C5_exit_priority (calcInd : List Candle → List IndicatorRow)
    (df : List Candle) (prev2 prev current : IndicatorRow)
    (h5 : 5 ≤ df.length)
    (hrows : last3 (calcInd df) = some (prev2, prev, current))
    (hA : specExitTriggerA prev2 prev current)
    (_hB : specExitTriggerB current) :
    (trader_check_exit_conditions calcInd df).1 = true ∧
    (trader_check_exit_conditions calcInd df).2.1 = some "ema_low_falling" ∧
    (bt_check_exit_conditions calcInd df).1 = true ∧
    (bt_check_exit_conditions calcInd df).2 = some "ema_low_falling" := by
  have hlt : ¬ df.length < 5 := by omega
  obtain ⟨a1, a2, a3⟩ := hA
  refine ⟨?_, ?_, ?_, ?_⟩ <;>
    · first
      | (unfold trader_check_exit_conditions; rw [if_neg hlt, hrows]; simp [a1, a2, a3])
      | (unfold bt_check_exit_conditions; rw [if_neg hlt, hrows]; simp [a1, a2, a3])

/-- Witness for C5: concrete rows on which both triggers fire. -/
theorem C5_exit_priority_witness :
    5 ≤ dfFive.length ∧
    last3 (calcExitBoth dfFive) = some (rowExitPrev2, rowExitPrev, rowExitCur) ∧
    specExitTriggerA rowExitPrev2 rowExitPrev rowExitCur ∧
    specExitTriggerB rowExitCur ∧
    (trader_check_exit_conditions calcExitBoth dfFive).1 = true :=
  ⟨by decide, by decide, by decide, by decide,
    (C5_exit_priority calcExitBoth dfFive rowExitPrev2 rowExitPrev rowExitCur
      (by decide) (by decide) (by decide) (by decide)).1⟩

/-- Counterexample for C6 as stated: with trading capital −1000 (premium
100, lot size 65) the capital cannot cover one lot, yet the sizer returns
the negative quantity −65 instead of the claimed 0. -/
theorem C6_negative_capital_counterexample :
    calculate_quantity (-1000) 100 65 = -65 ∧
    ((-1000 : ℚ) < 100 * (65 : ℕ)) ∧ ((-65 : ℤ) ≠ 0) := by
  refine ⟨?_, by norm_num, by decide⟩
  unfold calculate_quantity
  norm_num

/-- Claim C6, amended: the sizer returns
`⌊capital / (premium × lot)⌋ × lot` whenever the premium is positive
(hence a negative quantity for negative capital), returns 0 when the
premium is not positive, returns 0 when a nonnegative capital cannot
cover one lot, and yields 975 at capital 100000, premium 100, lot 65. -/
theorem C6_quantity_amended (trading_capital option_premium : ℚ) (lot : ℕ) :
    (0 < option_premium →
      calculate_quantity trading_capital option_premium lot =
        ⌊trading_capital / (option_premium * lot)⌋ * lot) ∧
    (option_premium ≤ 0 → calculate_quantity trading_capital option_premium lot = 0) ∧
    (0 ≤ trading_capital → trading_capital < option_premium * lot →
      calculate_quantity trading_capital option_premium lot = 0) ∧
    calculate_quantity 100000 100 65 = 975 := by
  have hval : calculate_quantity 100000 100 65 = 975 := by
    unfold calculate_quantity
    norm_num
  refine ⟨?_, ?_, ?_, hval⟩
  · intro hp
    unfold calculate_quantity
    rcases Nat.eq_zero_or_pos lot with h0 | hpos
    · subst h0; simp
    · have hc : (0 : ℚ) < option_premium * lot := by
        have hl : (0 : ℚ) < (lot : ℚ) := by exact_mod_cast hpos
        exact mul_pos hp hl
      rw [if_neg (not_le.mpr hc)]
  · intro hp
    unfold calculate_quantity
    have hln : (0 : ℚ) ≤ (lot : ℚ) := by positivity
    have hle : option_premium * lot ≤ 0 := mul_nonpos_of_nonpos_of_nonneg hp hln
    rw [if_pos hle]
  · intro hc hlt
    rcases le_or_lt option_premium 0 with hp | hp
    · unfold calculate_quantity
      have hln : (0 : ℚ) ≤ (lot : ℚ) := by positivity
      have hle : option_premium * lot ≤ 0 := mul_nonpos_of_nonpos_of_nonneg hp hln
      rw [if_pos hle]
    · unfold calculate_quantity
      have hcost : (0 : ℚ) < option_premium * lot := lt_of_le_of_lt hc hlt
      rw [if_neg (not_le.mpr hcost)]
      have h0 : ⌊trading_capital / (option_premium * lot)⌋ = 0 := by
        rw [Int.floor_eq_zero_iff]
        exact ⟨div_nonneg hc hcost.le, (div_lt_one hcost).mpr hlt⟩
      rw [h0, zero_mul]

/-- Witness for C6 (amended) at capital 100000, premium 100, lot 65. -/
theorem C6_quantity_amended_witness :
    ((0 : ℚ) < 100) ∧
    calculate_quantity 100000 100 65 = ⌊(100000 : ℚ) / (100 * (65 : ℕ))⌋ * (65 : ℕ) :=
  ⟨by norm_num, (C6_quantity_amended 100000 100 65).1 (by norm_num)⟩

/-- Counterexample for C9 as stated: a 5-candle sequence (fewer than 20)
on which the exit evaluation returns a computed verdict with a reason,
rather than the claimed insufficient-data report. -/
theorem C9_exit_short_history_counterexample :
    dfFive.length = 5 ∧ dfFive.length < 20 ∧
    (trader_check_exit_conditions calcExitBoth dfFive).1 = true ∧
    (trader_check_exit_conditions calcExitBoth dfFive).2.1 = some "ema_low_falling" := by
  refine ⟨by decide, by decide, by decide, by decide⟩

/-- Claim C9, amended: the entry evaluation reports insufficient data
(false verdict with the error marker) below 20 candles, while the exit
evaluation's insufficient-data threshold is 5 candles — below 5 it
returns no verdict and no reason with the error marker, and between 5 and
19 candles it returns a computed verdict. -/
theorem C9_insufficient_data_amended (calcInd : List Candle → List IndicatorRow)
    (df : List Candle) :
    (df.length < 20 →
      trader_check_buy_conditions calcInd df = (false, .insufficientData)) ∧
    (df.length < 5 →
      trader_check_exit_conditions calcInd df = (false, none, .insufficientData)) := by
  constructor
  · intro h
    unfold trader_check_buy_conditions
    rw [if_pos h]
  · intro h
    unfold trader_check_exit_conditions
    rw [if_pos h]

/-- Witness for C9 (amended) on concrete short frames. -/
theorem C9_insufficient_data_amended_witness :
    dfFive.length < 20 ∧ (dfFive.take 3).length < 5 ∧
    trader_check_buy_conditions calcBuyPair dfFive = (false, .insufficientData) ∧
    trader_check_exit_conditions calcBuyPair (dfFive.take 3) = (false, none, .insufficientData) :=
  ⟨by decide, by decide,
    (C9_insufficient_data_amended calcBuyPair dfFive).1 (by decide),
    (C9_insufficient_data_amended calcBuyPair (dfFive.take 3)).2 (by decide)⟩

/-- Claim C10: `simulate_buy` never rejects an entry for insufficient
funds — whenever no position is open it executes, debits the full cost
`price × 65`, and opens the position, regardless of the current balance
(which may therefore go negative). -/
theorem C10_simulate_buy_always_executes (symbol : String) (t : ℕ) (price : ℚ)
    (s : BtState) (h : s.current_position = none) :
    simulate_buy symbol t price s =
      (true, { current_balance := s.current_balance - price * 65,
               current_position := some { entry_time := t, entry_price := price,
                                          quantity := 65, symbol := symbol },
               trades := s.trades,
               last_5min_check_idx := s.last_5min_check_idx }) := by
  unfold simulate_buy
  rw [h]
  norm_num

/-- Witness for C10: entering at premium 100 from a balance of 100 is
executed and drives the simulated balance to −6400. -/
theorem C10_simulate_buy_always_executes_witness :
    btLowBalanceState.current_position = none ∧
    simulate_buy "SYM" 0 100 btLowBalanceState =
      (true, { current_balance := 100 - 100 * 65,
               current_position := some { entry_time := 0, entry_price := 100,
                                          quantity := 65, symbol := "SYM" },
               trades := [], last_5min_check_idx := -1 }) ∧ ((100 : ℚ) - 100 * 65 < 0) :=
  ⟨rfl, C10_simulate_buy_always_executes "SYM" 0 100 btLowBalanceState rfl, by norm_num⟩

/-- Counterexample for C3 as stated: the live `execute_buy` performs no
open-position check — invoked with a position already open (entry 50) and
a successful order, it reports success and overwrites the position with
the new fill at 120, leaving the trade ledger unchanged: the attempt is
neither rejected nor a no-op. -/
theorem C3_execute_buy_no_guard_counterexample :
    liveOpenState.position_open = true ∧ liveOpenState.entry_price = 50 ∧
    (execute_buy 100 100000 true 120 5 "NEW" liveOpenState).1 = true ∧
    (execute_buy 100 100000 true 120 5 "NEW" liveOpenState).2.entry_price = 120 ∧
    (execute_buy 100 100000 true 120 5 "NEW" liveOpenState).2.position_open = true := by
  have h : execute_buy 100 100000 true 120 5 "NEW" liveOpenState =
      (true, { liveOpenState with
                 position_open := true, entry_price := 120,
                 entry_time := some 5, position_quantity := 845,
                 position_symbol := some "NEW", available_balance := 100000,
                 trading_capital := 90000, calculated_quantity := 845 }) := by
    unfold execute_buy liveOpenState calculate_quantity
    norm_num [cfg_risk_factor, cfg_lot_size]
  rw [h]
  refine ⟨rfl, rfl, rfl, rfl, rfl⟩

/-- Claim C3, amended: the single-position discipline is enforced by the
backtest methods and by the live exit path — `simulate_buy` while a
position exists and `simulate_sell` while flat are rejected no-ops, and
the live `execute_sell` while flat is a rejected no-op; the live
`execute_buy`, however, has no open-position guard (only the driver loop
prevents it from being reached while a position is open). -/
theorem C3_single_position_amended :
    (∀ (symbol : String) (t : ℕ) (p : ℚ) (s : BtState) (pos : BtPosition),
        s.current_position = some pos → simulate_buy symbol t p s = (false, s)) ∧
    (∀ (t : ℕ) (p : ℚ) (r : String) (s : BtState),
        s.current_position = none → simulate_sell t p r s = (false, s)) ∧
    (∀ (reason : String) (cp : ℚ) (placed : Bool) (fprice : ℚ)
        (now : ℕ) (s : LiveState),
        s.position_open = false →
          execute_sell reason cp placed fprice now s = (false, s)) := by
  refine ⟨?_, ?_, ?_⟩
  · intro symbol t p s pos h
    unfold simulate_buy
    rw [h]
  · intro t p r s h
    unfold simulate_sell
    rw [h]
  · intro reason cp placed fprice now s h
    unfold execute_sell
    rw [h]
    rfl

/-- Witness for C3 (amended) at concrete states. -/
theorem C3_single_position_amended_witness :
    simulate_buy "SYM" 2 100 btOpenState = (false, btOpenState) ∧
    simulate_sell 2 100 "ema_low_falling" btLowBalanceState = (false, btLowBalanceState) ∧
    execute_sell "ema_low_falling" 100 true 100 2 liveFlatState = (false, liveFlatState) :=
  ⟨C3_single_position_amended.1 "SYM" 2 100 btOpenState _ rfl,
   C3_single_position_amended.2.1 2 100 "ema_low_falling" btLowBalanceState rfl,
   C3_single_position_amended.2.2 "ema_low_falling" 100 true 100 2 liveFlatState rfl⟩

/-- The polling loop indexed from `i` can only report a signal at an
index at least `i`. -/
theorem waitGo_signalAt_ge (calcInd : List Candle → List IndicatorRow) :
    ∀ (polls : List LivePoll) (i : ℕ) (s : SignalState) (j : ℕ),
      waitGo calcInd i s polls = .signalAt j → i ≤ j := by
  intro polls
  induction polls with
  | nil =>
    intro i s j h
    simp [waitGo] at h
  | cons p rest ih =>
    intro i s j h
    unfold waitGo at h
    split_ifs at h
    any_goals exact Nat.le_of_succ_le (ih (i + 1) _ j h)
    · injection h with hij
      omega

/-- Counterexample for C2 as stated: on this two-poll trace the live loop
returns `True` (enters) at poll 1, where a fresh primary (5-minute)
evaluation would return `false` — the entry rests on the primary verdict
stored at poll 0, 5 seconds earlier, inside the 10-second throttle.  So
in the live polling loop a primary verdict that was true only at an
earlier throttled check does suffice to enter. -/
theorem C2_stale_primary_counterexample :
    wait_for_buy_signal calcMap [pollPrimaryOnly, pollConfirmOnly] = .signalAt 1 ∧
    freshPrimary calcMap pollPrimaryOnly = true ∧
    freshConfirm calcMap pollPrimaryOnly = false ∧
    freshPrimary calcMap pollConfirmOnly = false ∧
    freshConfirm calcMap pollConfirmOnly = true ∧
    pollConfirmOnly.time - pollPrimaryOnly.time < cfg_primary_check_seconds := by
  refine ⟨by decide, by decide, by decide, by decide, by decide, by decide⟩

/-- Claim C2, amended: in the backtest replay an entry does require both
evaluations to be freshly true at the same index (the primary signal is
reset to `false` on throttled steps); in the live loop an entry requires
the confirm evaluation to be true at the current poll together with the
stored primary flag, which is re-evaluated only when the 10-second
throttle has elapsed and otherwise retains the verdict of an earlier
poll. -/
theorem C2_double_confirmation_amended :
    (∀ (calcInd : List Candle → List IndicatorRow) (i : ℕ) (s : SignalState)
        (p : LivePoll) (rest : List LivePoll),
        waitGo calcInd i s (p :: rest) = .signalAt i →
        pollCanTrade p = true ∧ freshConfirm calcInd p = true ∧
          primaryAtDecision calcInd s p = true) ∧
    (∀ (calcInd : List Candle → List IndicatorRow) (df2 df5 : List Candle)
        (symbol : String) (idx : ℕ) (c : Candle) (s : BtState),
        s.current_position = none →
        ((btStep calcInd df2 df5 symbol idx c s).1.current_position).isSome = true →
        2 ≤ (idx : ℤ) - s.last_5min_check_idx ∧
        (bt_check_buy_conditions calcInd (btWindow df5 c.time)).1 = true ∧
        (bt_check_buy_conditions calcInd (btWindow df2 c.time)).1 = true) := by
  constructor
  · intro calcInd i s p rest h
    unfold waitGo at h
    split_ifs at h
    any_goals exact absurd (waitGo_signalAt_ge calcInd rest (i + 1) _ i h) (by omega)
    rename_i hsig hct
    rw [Bool.and_eq_true] at hsig
    obtain ⟨hp, hc⟩ := hsig
    exact ⟨hct, hc, hp⟩
  · intro calcInd df2 df5 symbol idx c s hnone hsome
    unfold btStep at hsome
    rw [hnone] at hsome
    simp only [] at hsome
    split_ifs at hsome with h1 h2 h3 hcond
    · simp [hnone] at hsome
    · simp [hnone] at hsome
    · simp [hnone] at hsome
    · rw [Bool.and_eq_true] at hcond
      obtain ⟨hp, hc⟩ := hcond
      unfold btPrimaryPair at hp
      split_ifs at hp with hthrottle
      exact ⟨hthrottle, hp, hc⟩
    · simp at hsome

/-- Witness for C2 (amended): the live conjunct applied at the decisive
poll of the counterexample trace, and the backtest conjunct applied at
the entry step of the replay counterexample. -/
theorem C2_double_confirmation_amended_witness :
    (pollCanTrade pollConfirmOnly = true ∧
      freshConfirm calcMap pollConfirmOnly = true ∧
      primaryAtDecision calcMap sigStateAfterPrimary pollConfirmOnly = true) ∧
    (2 ≤ ((20 : ℕ) : ℤ) - btFlatInit.last_5min_check_idx ∧
      (bt_check_buy_conditions calcMap (btWindow dfInc (mkCandle 20 10 0 21).time)).1 = true ∧
      (bt_check_buy_conditions calcMap (btWindow df2Replay (mkCandle 20 10 0 21).time)).1 = true) :=
  ⟨C2_double_confirmation_amended.1 calcMap 1 sigStateAfterPrimary pollConfirmOnly []
      (by decide),
   C2_double_confirmation_amended.2 calcMap df2Replay dfInc "SYM" 20
      (mkCandle 20 10 0 21) btFlatInit rfl (by decide)⟩

/-- Selling from a state holding a position always clears the position. -/
theorem simulate_sell_clears_position (t : ℕ) (p : ℚ) (r : String) (s : BtState)
    (pos : BtPosition) (h : s.current_position = some pos) :
    (simulate_sell t p r s).2.current_position = none := by
  unfold simulate_sell
  rw [h]

/-- Counterexample for C7 as stated: on this replay the position opened
at index 20 is closed with reason `market_close` already at the first
candle at or after 15:15 — at which the exit evaluation is false — and
the remaining candle at 15:20, still before the 15:30 close, is never
processed.  An open position is therefore not monitored for exit
conditions after the stop-new-trades point until close; it is
force-closed at the stop boundary and the replay ends. -/
theorem C7_stop_boundary_counterexample :
    (bt_run_state calcMap "SYM" df2Replay dfInc 100000).toOption.map
        (fun s => s.trades.map (fun t => (t.entry_time, t.exit_time, t.exit_reason))) =
      some [(20, 21, "market_close")] ∧
    (bt_check_exit_conditions calcMap (btWindow df2Replay 21)).1 = false ∧
    (bt_check_exit_conditions calcMap (btWindow df2Replay 21)).2 = none ∧
    df2Replay.length = 23 ∧
    (df2Replay.getLast?).map (fun c => (c.time, c.hour, c.minute)) = some (22, 15, 20) := by
  refine ⟨by decide, by decide, by decide, by decide, by decide⟩

/-- Claim C7, amended: once the replay reaches a candle at or after the
stop-new-trades boundary (hour 15, minute at least 15) it halts
immediately — any open position is closed right there with reason
`market_close` and no further indices are processed (hence no new entries
and also no further exit-condition checks); and every successful run ends
flat: a position still open after the loop is force-closed at the last
candle with reason `market_close`. -/
theorem C7_stop_boundary_amended :
    (∀ (calcInd : List Candle → List IndicatorRow) (df2 df5 : List Candle)
        (symbol : String) (idx : ℕ) (c : Candle) (rest : List (ℕ × Candle))
        (s : BtState),
        c.hour = 15 → 15 ≤ c.minute →
        btGo calcInd df2 df5 symbol ((idx, c) :: rest) s =
          (match s.current_position with
           | some _ => (simulate_sell c.time c.close "market_close" s).2
           | none => s)) ∧
    (∀ (calcInd : List Candle → List IndicatorRow) (symbol : String)
        (df2 df5 : List Candle) (initial : ℚ) (s : BtState),
        bt_run_state calcInd symbol df2 df5 initial = .ok s →
        s.current_position = none) := by
  constructor
  · intro calcInd df2 df5 symbol idx c rest s h15 hmin
    unfold btGo btStep
    have h1 : ¬ (c.hour = 9 ∧ c.minute < 30) := by omega
    have h2 : c.hour = 15 ∧ 15 ≤ c.minute := ⟨h15, hmin⟩
    rw [if_neg h1, if_pos h2]
    rfl
  · intro calcInd symbol df2 df5 initial s h
    unfold bt_run_state at h
    split_ifs at h with h1 h2
    rcases hpos : (btLoopResult calcInd symbol df2 df5 initial).current_position
      with _ | pos
    · rw [hpos] at h
      rcases hlast : df2.getLast? with _ | lastc <;> rw [hlast] at h <;>
        · injection h with h'
          rw [← h']
          exact hpos
    · rw [hpos] at h
      rcases hlast : df2.getLast? with _ | lastc
      · rw [List.getLast?_eq_none_iff] at hlast
        subst hlast
        simp at h1
      · rw [hlast] at h
        injection h with h'
        rw [← h']
        exact simulate_sell_clears_position lastc.time lastc.close "market_close"
          (btLoopResult calcInd symbol df2 df5 initial) pos hpos

/-- Witness for C7 (amended): the stop-boundary equation applied to the
15:15 candle of the replay counterexample with a position open, and the
ends-flat conjunct applied to a concrete successful run. -/
theorem C7_stop_boundary_amended_witness :
    (btGo calcMap df2Replay dfInc "SYM"
        [(21, mkCandle 21 15 15 30), (22, mkCandle 22 15 20 31)] btOpenState =
      (match btOpenState.current_position with
       | some _ => (simulate_sell (mkCandle 21 15 15 30).time
           (mkCandle 21 15 15 30).close "market_close" btOpenState).2
       | none => btOpenState)) ∧
    (btLoopResult calcMap "SYM" dfFive dfFive 100).current_position = none :=
  ⟨C7_stop_boundary_amended.1 calcMap df2Replay dfInc "SYM" 21 (mkCandle 21 15 15 30)
      [(22, mkCandle 22 15 20 31)] btOpenState rfl (by decide),
   C7_stop_boundary_amended.2 calcMap "SYM" dfFive dfFive 100
      (btLoopResult calcMap "SYM" dfFive dfFive 100) rfl⟩

/-- `tail(n)` never yields more rows than its input. -/
theorem lastN_length_le (n : ℕ) (l : List α) : (lastN n l).length ≤ l.length := by
  unfold lastN
  rw [List.length_drop]
  omega

/-- A trailing window is no longer than the series it is cut from. -/
theorem btWindow_length_le (series : List Candle) (t : ℕ) :
    (btWindow series t).length ≤ series.length :=
  le_trans (lastN_length_le _ _) (List.length_filter_le _ _)

/-- The backtest buy check is `false` on frames shorter than 20 rows. -/
theorem bt_check_buy_short (calcInd : List Candle → List IndicatorRow)
    (l : List Candle) (h : l.length < 20) :
    (bt_check_buy_conditions calcInd l).1 = false := by
  unfold bt_check_buy_conditions
  rw [if_pos h]

/-- With a 5-minute series shorter than the warm-up, a flat replay step
stays flat and leaves the ledger and balance untouched. -/
theorem btStep_no_entry (calcInd : List Candle → List IndicatorRow)
    (df2 df5 : List Candle) (symbol : String) (idx : ℕ) (c : Candle) (s : BtState)
    (h5 : df5.length < 20) (hnone : s.current_position = none) :
    (btStep calcInd df2 df5 symbol idx c s).1.current_position = none ∧
    (btStep calcInd df2 df5 symbol idx c s).1.trades = s.trades ∧
    (btStep calcInd df2 df5 symbol idx c s).1.current_balance = s.current_balance := by
  have hwin : (btWindow df5 c.time).length < 20 :=
    lt_of_le_of_lt (btWindow_length_le df5 c.time) h5
  have hpp : (btPrimaryPair calcInd df5 idx c s).1 = false := by
    unfold btPrimaryPair
    split_ifs with h
    · exact bt_check_buy_short calcInd _ hwin
    · rfl
  unfold btStep
  rw [hnone]
  simp only [hpp, Bool.false_and]
  split_ifs with ha hb hc hd
  · exact ⟨hnone, rfl, rfl⟩
  · exact ⟨hnone, rfl, rfl⟩
  · exact ⟨hnone, rfl, rfl⟩
  · cases hd
  · exact ⟨rfl, rfl, rfl⟩

/-- With a 5-minute series shorter than the warm-up, the whole replay
loop from a flat state stays flat with untouched ledger and balance. -/
theorem btGo_no_entry (calcInd : List Candle → List IndicatorRow)
    (df2 df5 : List Candle) (symbol : String) (h5 : df5.length < 20) :
    ∀ (steps : List (ℕ × Candle)) (s : BtState), s.current_position = none →
      (btGo calcInd df2 df5 symbol steps s).current_position = none ∧
      (btGo calcInd df2 df5 symbol steps s).trades = s.trades ∧
      (btGo calcInd df2 df5 symbol steps s).current_balance = s.current_balance := by
  intro steps
  induction steps with
  | nil =>
    intro s h
    exact ⟨h, rfl, rfl⟩
  | cons x rest ih =>
    intro s h
    obtain ⟨idx, c⟩ := x
    obtain ⟨p1, p2, p3⟩ := btStep_no_entry calcInd df2 df5 symbol idx c s h5 h
    unfold btGo
    simp only []
    split_ifs with hbrk
    · exact ⟨p1, p2, p3⟩
    · obtain ⟨q1, q2, q3⟩ := ih _ p1
      exact ⟨q1, q2.trans p2, q3.trans p3⟩

/-- Claim C8: a backtest run with an empty candle series for either
timeframe is a hard stop (an error is raised), while non-empty series
with fewer than the 20 warm-up candles on either timeframe complete with
zero trades and the all-zero metrics dict. -/
theorem C8_empty_and_short_series (calcInd : List Candle → List IndicatorRow)
    (symbol : String) (numStd : List ℚ → ℚ) (sqrt252 initial : ℚ)
    (df2 df5 : List Candle) :
    (bt_run calcInd symbol [] df5 numStd sqrt252 initial =
      .error "No CE option 2-min data loaded - check if instrument token is correct") ∧
    (df2 ≠ [] → bt_run calcInd symbol df2 [] numStd sqrt252 initial =
      .error "No CE option 5-min data loaded - check if instrument token is correct") ∧
    (df2 ≠ [] → df5 ≠ [] → (df2.length < 20 ∨ df5.length < 20) →
      bt_run calcInd symbol df2 df5 numStd sqrt252 initial =
        .ok (emptyMetrics initial initial)) := by
  refine ⟨rfl, ?_, ?_⟩
  · intro h2
    unfold bt_run bt_run_state
    have hne : ¬ df2.isEmpty = true := by simp [h2]
    rw [if_neg hne]
    rfl
  · intro h2 h5 hshort
    have hne2 : ¬ df2.isEmpty = true := by simp [h2]
    have hne5 : ¬ df5.isEmpty = true := by simp [h5]
    rcases hshort with h20 | h20
    · have hdrop : df2.enum.drop 20 = [] := by
        apply List.drop_eq_nil_of_le
        rw [List.enum_length]
        omega
      unfold bt_run bt_run_state btLoopResult
      rw [if_neg hne2, if_neg hne5, hdrop]
      rcases hlast : df2.getLast? with _ | lastc <;> rfl
    · obtain ⟨p1, p2, p3⟩ := btGo_no_entry calcInd df2 df5 symbol h20
        (df2.enum.drop 20)
        { current_balance := initial, current_position := none, trades := [],
          last_5min_check_idx := -1 } rfl
      have q1 : (btLoopResult calcInd symbol df2 df5 initial).current_position = none := p1
      have q2 : (btLoopResult calcInd symbol df2 df5 initial).trades = [] := p2
      have q3 : (btLoopResult calcInd symbol df2 df5 initial).current_balance = initial := p3
      unfold bt_run bt_run_state
      rw [if_neg hne2, if_neg hne5, q1]
      rcases hlast : df2.getLast? with _ | lastc <;>
        · show Except.ok (calculate_metrics numStd sqrt252 initial
              (btLoopResult calcInd symbol df2 df5 initial).current_balance
              (btLoopResult calcInd symbol df2 df5 initial).trades) =
            Except.ok (emptyMetrics initial initial)
          rw [q2, q3]
          rfl

/-- Witness for C8: a 5-candle series on both timeframes completes with
the all-zero metrics. -/
theorem C8_empty_and_short_series_witness :
    dfFive ≠ [] ∧ dfFive.length < 20 ∧
    bt_run calcMap "SYM" dfFive dfFive (fun _ => 0) 0 100000 =
      .ok (emptyMetrics 100000 100000) :=
  ⟨by decide, by decide,
    (C8_empty_and_short_series calcMap "SYM" (fun _ => 0) 0 100000 dfFive dfFive).2.2
      (by decide) (by decide) (Or.inl (by decide))⟩
